import Mathlib

/-!
Shallow embedding of the answer-resolution and execution pipeline of the
AI_Exam_Taker repository.

Sources embedded:
- `ExamTaker` (src/unnamed/part_004): the orchestrator / session controller.
  Its event handlers are translated as pure state-transition functions that
  return the new state together with the list of externally observable calls
  (`Effect`s) they issue, in program order.  Results of awaited collaborator
  calls (RAG search, coordinate lookup, remote click) are passed in as
  explicit oracle arguments of `Except`/`Option` type, mirroring the
  resolve/reject behaviour of the corresponding promises.
- `RemotelyClient` (src/src/rdp/RemotelyClient.js): the remote-session
  adapter; its input-injection methods are translated as functions from the
  client's connection state to the list of wire messages actually sent plus
  the value returned (or error thrown) to the caller.
- `VisionAnalyzer` (src/unnamed/part_005, second file): `processAnalysis`
  and `findAnswer`, translated the same way.

Confidence scores and thresholds are JS numbers in the source; they are
modelled as rationals.  Timestamps, logging and image payloads carry no
control-flow weight and are omitted; image data is kept as an opaque String.
-/

namespace AIExam

/-- Configuration values read by the embedded code (config.json): `ai.confidence_threshold`
and `rag.similarity_threshold`. -/
structure Config where
  confidence_threshold : ℚ
  similarity_threshold : ℚ
deriving Repr, DecidableEq

/-- The shipped config.json: confidence_threshold 0.8, similarity_threshold 0.7. -/
def defaultConfig : Config := ⟨mkRat 4 5, mkRat 7 10⟩

/-- The `uncertaintyData` object passed to `ExamTaker.handleUncertainty`; the
source builds it with different subsets of these fields at each call site. -/
structure UncertaintyData where
  question : Option String
  answer : Option String
  confidence : Option ℚ
  error : Option String
  reason : Option String
deriving Repr, DecidableEq

/-- The per-question record built in `ExamTaker.handleQuestionDetected`
(`this.currentQuestion`); `uuid` stands for the generated id, timestamps are
omitted. -/
structure Question where
  id : Nat
  question : String
  qtype : String
  options : List String
  status : String
  answer : Option String
  confidence : Option ℚ
  source : Option String
  uncertainty : Option UncertaintyData
deriving Repr, DecidableEq

/-- The mutable fields of `ExamTaker` that the embedded handlers read or
write.  Note the constructor of the source class has NO pending-screenshot
queue and no busy/resolving flag: `lastScreenshot` is the only
screenshot-related field. -/
structure TakerState where
  isActive : Bool
  manualOverride : Bool
  connected : Bool
  currentExamType : String
  examId : Option Nat
  currentQuestion : Option Question
  questionHistory : List Question
  screenshotInterval : Bool
  lastScreenshot : Option String
deriving Repr, DecidableEq

/-- Externally observable calls issued by the ExamTaker / VisionAnalyzer
handlers: socket.io emissions, collaborator invocations and the remote click. -/
inductive Effect where
  | emitScreenshot (img : String)
  | analyzeScreen (img : String)
  | emitScreenAnalysis
  | emitQuestionDetected (question : String)
  | ragSearch (query : String)
  | emitAiReasoning
  | webSearch (query : String)
  | reasonCall (question : String)
  | emitAnswerFound (answer : String) (confidence : ℚ) (source : String)
  | emitUncertainty (u : UncertaintyData)
  | emitOverrideChanged (enabled : Bool)
  | clickAnswer (x y : Int)
  | emitActionExecuted
  | emitExamStarted
  | emitExamStopped (questionsAnswered : Nat)
deriving Repr, DecidableEq

/-- `ExamTaker.handleUncertainty` (part_004 lines 321-342): emits the
uncertainty event, enables manual override via `setManualOverride(true)`
(which emits `manual_override_changed`), and marks the current question
`uncertain`. -/
def handleUncertainty (s : TakerState) (u : UncertaintyData) : TakerState × List Effect :=
  let s1 := {s with manualOverride := true}
  let s2 :=
    match s1.currentQuestion with
    | some q => {s1 with currentQuestion := some {q with status := "uncertain", uncertainty := some u}}
    | none => s1
  (s2, [.emitUncertainty u, .emitOverrideChanged true])

/-- Gives the history entry pushed by `executeAnswer`
(`{...this.currentQuestion, answeredAt, coordinates}`); when
`currentQuestion` is null the JS spread yields an empty object, modelled by a
default record. -/
def historyEntry (s : TakerState) : Question :=
  match s.currentQuestion with
  | some q => q
  | none => ⟨0, "", "", [], "", none, none, none, none⟩

/-- `ExamTaker.executeAnswer` (part_004 lines 344-388).  `coords` is the
value returned by `visionAnalyzer.findAnswerCoordinates`; `clickRes` is the
outcome of the awaited `remotelyClient.clickAnswer` promise.  On null
coordinates the method throws and its own catch block routes to
`handleUncertainty` with reason `Execution failed`; the same catch handles a
rejected click. -/
def executeAnswer (s : TakerState) (coords : Option (Int × Int)) (clickRes : Except String Unit) :
    TakerState × List Effect :=
  match coords with
  | some c =>
    match clickRes with
    | .ok _ =>
      ({s with questionHistory := s.questionHistory ++ [historyEntry s]},
       [.clickAnswer c.1 c.2, .emitActionExecuted])
    | .error msg =>
      let r := handleUncertainty s
        ⟨(s.currentQuestion.map Question.question), none, none, some msg, some "Execution failed"⟩
      (r.1, .clickAnswer c.1 c.2 :: r.2)
  | none =>
    handleUncertainty s
      ⟨(s.currentQuestion.map Question.question), none, none,
       some "Could not determine click coordinates for answer", some "Execution failed"⟩

/-- The `answerData` argument of `handleAnswerFound`. -/
structure AnswerData where
  answer : String
  confidence : ℚ
  source : String
deriving Repr, DecidableEq

/-- `ExamTaker.handleAnswerFound` (part_004 lines 287-319): records the
answer on the current question, emits `answer_found`, then either executes
(confidence ≥ `config.ai.confidence_threshold`) or routes to uncertainty
with reason `Low confidence`. -/
def handleAnswerFound (cfg : Config) (s : TakerState) (ad : AnswerData)
    (coords : Option (Int × Int)) (clickRes : Except String Unit) :
    TakerState × List Effect :=
  let s1 :=
    match s.currentQuestion with
    | some q => {s with currentQuestion := some {q with
        answer := some ad.answer, confidence := some ad.confidence,
        source := some ad.source, status := "answered"}}
    | none => s
  let e0 := [Effect.emitAnswerFound ad.answer ad.confidence ad.source]
  if cfg.confidence_threshold ≤ ad.confidence then
    let r := executeAnswer s1 coords clickRes
    (r.1, e0 ++ r.2)
  else
    let r := handleUncertainty s1
      ⟨(s1.currentQuestion.map Question.question), some ad.answer, some ad.confidence,
       none, some "Low confidence"⟩
    (r.1, e0 ++ r.2)

/-- `ExamTaker.searchOnlineForAnswer` (part_004 lines 390-410): a placeholder
that immediately routes to `handleUncertainty` with the literal reason
string from the source. -/
def searchOnlineForAnswer (s : TakerState) (question : String) : TakerState × List Effect :=
  handleUncertainty s
    ⟨some question, none, none, none,
     some "Answer not found in knowledge base, online search not implemented yet"⟩

/-- One element of the list returned by `ragSystem.search`. -/
structure RagResult where
  content : String
  score : ℚ
deriving Repr, DecidableEq

/-- The `questionData` payload of the `question_detected` event. -/
structure QuestionData where
  question : String
  qtype : String
  options : List String
deriving Repr, DecidableEq

/-- `ExamTaker.handleQuestionDetected` (part_004 lines 233-285): builds the
Question record (status `analyzing`), emits `question_detected`, awaits the
RAG search (`ragResp`; a rejection lands in the catch block, which routes to
`handleUncertainty` with the error), emits `ai_reasoning`, then either hands
the top hit to `handleAnswerFound` (strict `score > similarity_threshold`)
or falls back to `searchOnlineForAnswer`. -/
def handleQuestionDetected (cfg : Config) (s : TakerState) (qd : QuestionData) (newId : Nat)
    (ragResp : Except String (List RagResult)) (coords : Option (Int × Int))
    (clickRes : Except String Unit) : TakerState × List Effect :=
  let q : Question := ⟨newId, qd.question, qd.qtype, qd.options, "analyzing", none, none, none, none⟩
  let s1 := {s with currentQuestion := some q}
  let e1 := [Effect.emitQuestionDetected qd.question, Effect.ragSearch qd.question]
  match ragResp with
  | .error msg =>
    let r := handleUncertainty s1 ⟨some qd.question, none, none, some msg, none⟩
    (r.1, e1 ++ r.2)
  | .ok rs =>
    let e2 := e1 ++ [Effect.emitAiReasoning]
    match rs with
    | top :: _ =>
      if cfg.similarity_threshold < top.score then
        let r := handleAnswerFound cfg s1
          ⟨top.content, top.score, "rag_" ++ s.currentExamType⟩ coords clickRes
        (r.1, e2 ++ r.2)
      else
        let r := searchOnlineForAnswer s1 qd.question
        (r.1, e2 ++ r.2)
    | [] =>
      let r := searchOnlineForAnswer s1 qd.question
      (r.1, e2 ++ r.2)

/-- `ExamTaker.handleRemotelyScreenshot` (part_004 lines 181-215): when the
exam is inactive or manual override is on, only the monitoring screenshot is
emitted; otherwise the screenshot is stored in `lastScreenshot`, emitted,
and dispatched to `visionAnalyzer.analyzeScreen` (`analysisOk` is whether
that awaited call resolves; on resolution `screen_analysis` is emitted, on
rejection the catch only logs). -/
def handleRemotelyScreenshot (s : TakerState) (img : String) (analysisOk : Bool) :
    TakerState × List Effect :=
  if !s.isActive || s.manualOverride then
    (s, [.emitScreenshot img])
  else
    ({s with lastScreenshot := some img},
     [Effect.emitScreenshot img, Effect.analyzeScreen img]
       ++ (if analysisOk then [Effect.emitScreenAnalysis] else []))

/-- `ExamTaker.startExam` (part_004 lines 119-143): throws when not
connected; otherwise assigns a fresh exam id (`newExamId` stands for the
generated uuid), sets the active flag and resets `questionHistory` to `[]`. -/
def startExam (s : TakerState) (newExamId : Nat) : Except String (TakerState × List Effect) :=
  if !s.connected then
    .error "No active RDP connection"
  else
    .ok ({s with examId := some newExamId, isActive := true, questionHistory := []},
         [Effect.emitExamStarted])

/-- `ExamTaker.stopExam` (part_004 lines 145-165): clears the active flag,
clears the screenshot interval if one is set, and emits `exam_stopped` with
the history length; the history itself is untouched. -/
def stopExam (s : TakerState) : TakerState × List Effect :=
  let s1 := {s with isActive := false}
  let s2 := if s1.screenshotInterval then {s1 with screenshotInterval := false} else s1
  (s2, [Effect.emitExamStopped s.questionHistory.length])

/-- Wire messages sent over the Remotely WebSocket by the input-injection
helpers (`sendMouseMove`, `sendMouseClick`, `sendKeyPress`, `sendKeyDown`,
`sendKeyUp`, `sendTextInput` in RemotelyClient.js). -/
inductive WireMsg where
  | mouseMove (x y : Int)
  | mouseClick (x y : Int) (button : String)
  | keyPress (key : String) (ctrl : Bool)
  | keyDown (key : String)
  | keyUp (key : String)
  | textInput (text : String)
deriving Repr, DecidableEq

/-- The fields of `RemotelyClient` consulted by `sendMessage`: whether
`this.ws` is non-null and the `connected` flag. -/
structure RcState where
  hasWs : Bool
  connected : Bool
deriving Repr, DecidableEq

/-- `RemotelyClient.sendMessage` (RemotelyClient.js lines 168-174): sends
the message only when `this.ws && this.connected`; otherwise it logs a
warning and silently drops the message — it does not throw. -/
def sendMessage (rc : RcState) (m : WireMsg) : List WireMsg :=
  if rc.hasWs && rc.connected then [m] else []

/-- Value resolved by `RemotelyClient.clickAnswer`. -/
structure ClickResult where
  success : Bool
  x : Int
  y : Int
deriving Repr, DecidableEq

/-- `RemotelyClient.clickAnswer` (RemotelyClient.js lines 296-322): mouse
move, then one or two left clicks, all through `sendMessage`; resolves with
`{success: true, coordinates}`.  Nothing on this path can throw, so the
`Except` result is always `ok`; the wire-message list is what was actually
sent. -/
def clickAnswer (rc : RcState) (x y : Int) (doubleClick : Bool) :
    Except String ClickResult × List WireMsg :=
  let ms := sendMessage rc (.mouseMove x y)
    ++ (if doubleClick then
          sendMessage rc (.mouseClick x y "left") ++ sendMessage rc (.mouseClick x y "left")
        else
          sendMessage rc (.mouseClick x y "left"))
  (.ok ⟨true, x, y⟩, ms)

/-- Value resolved by `RemotelyClient.typeAnswer`. -/
structure TypeResult where
  success : Bool
  text : String
deriving Repr, DecidableEq

/-- `RemotelyClient.typeAnswer` (RemotelyClient.js lines 324-345): optional
ctrl-a/Delete clearing, then `sendTextInput`; resolves with
`{success: true, text}`.  Never checks `connected` itself. -/
def typeAnswer (rc : RcState) (text : String) (clearFirst : Bool) :
    Except String TypeResult × List WireMsg :=
  let pre :=
    if clearFirst then
      sendMessage rc (.keyPress "a" true) ++ sendMessage rc (.keyPress "Delete" false)
    else []
  (.ok ⟨true, text⟩, pre ++ sendMessage rc (.textInput text))

/-- `RemotelyClient.dragAndDrop` (RemotelyClient.js lines 347-372): move,
mouse down, move, mouse up, all through `sendMessage`; resolves with
`{success: true, ...}`. -/
def dragAndDrop (rc : RcState) (sx sy ex ey : Int) :
    Except String Bool × List WireMsg :=
  (.ok true,
   sendMessage rc (.mouseMove sx sy) ++ sendMessage rc (.keyDown "MouseLeft")
     ++ sendMessage rc (.mouseMove ex ey) ++ sendMessage rc (.keyUp "MouseLeft"))

/-- The structured screen description returned by
`ollamaClient.analyzeExamScreen` and fed to
`VisionAnalyzer.processAnalysis` (part_005). -/
structure Analysis where
  question : Option String
  question_type : String
  options : List String
  confidence : ℚ
deriving Repr, DecidableEq

/-- One element of the list returned by
`webSearchClient.searchForQuestionType`. -/
structure WebResult where
  extractedAnswer : String
  confidence : ℚ
  source : String
deriving Repr, DecidableEq

/-- The object returned by `ollamaClient.reasonAboutAnswer`. -/
structure ReasonResult where
  answer : String
  confidence : ℚ
  reasoning : String
deriving Repr, DecidableEq

/-- `VisionAnalyzer.findAnswer` (part_005): RAG search first (strict
`score > similarity_threshold`); below threshold, web search when configured
(a hit needs strict `confidence > 0.6`, a thrown web search is swallowed);
when no best answer was set, `reasonAboutAnswer` is always called last and
its result emitted; a rejection of the RAG or reasoning call lands in the
catch block, which emits an uncertainty with reason `Answer search failed`. -/
def findAnswer (cfg : Config) (question : String)
    (ragResp : Except String (List RagResult)) (webConfigured : Bool)
    (webResp : Except String (List WebResult)) (reasonResp : Except String ReasonResult) :
    List Effect :=
  match ragResp with
  | .error msg =>
    [Effect.ragSearch question,
     Effect.emitUncertainty ⟨some question, none, none, some msg, some "Answer search failed"⟩]
  | .ok rags =>
    let e0 := [Effect.ragSearch question]
    let ragHit : Option RagResult :=
      match rags with
      | top :: _ => if cfg.similarity_threshold < top.score then some top else none
      | [] => none
    match ragHit with
    | some top => e0 ++ [Effect.emitAnswerFound top.content top.score "rag"]
    | none =>
      let webEffects := if webConfigured then [Effect.webSearch question] else []
      let webHit : Option WebResult :=
        if webConfigured then
          match webResp with
          | .error _ => none
          | .ok ws =>
            match ws with
            | w :: _ => if mkRat 6 10 < w.confidence then some w else none
            | [] => none
        else none
      match webHit with
      | some w => e0 ++ webEffects ++ [Effect.emitAnswerFound w.extractedAnswer w.confidence "web_search"]
      | none =>
        match reasonResp with
        | .error msg =>
          e0 ++ webEffects ++ [Effect.reasonCall question,
            Effect.emitUncertainty ⟨some question, none, none, some msg, some "Answer search failed"⟩]
        | .ok rr =>
          e0 ++ webEffects ++ [Effect.reasonCall question, Effect.emitAiReasoning,
            Effect.emitAnswerFound rr.answer rr.confidence "reasoning"]

/-- `VisionAnalyzer.processAnalysis` (part_005): drops the report silently
(`return` after a log line — no event, no collaborator call) when there is
no question text or the detection confidence is below 0.5; otherwise emits
`question_detected` and, when the question has options, runs `findAnswer`. -/
def processAnalysis (cfg : Config) (a : Analysis)
    (ragResp : Except String (List RagResult)) (webConfigured : Bool)
    (webResp : Except String (List WebResult)) (reasonResp : Except String ReasonResult) :
    List Effect :=
  match a.question with
  | none => []
  | some q =>
    if a.confidence < mkRat 1 2 then []
    else
      Effect.emitQuestionDetected q
        :: (if a.options.isEmpty then []
            else findAnswer cfg q ragResp webConfigured webResp reasonResp)

/-- Whether an effect list contains a remote click dispatch. -/
def hasClick (effs : List Effect) : Bool :=
  effs.any fun e =>
    match e with
    | .clickAnswer _ _ => true
    | _ => false

/-- Whether an effect list contains an uncertainty emission with the given
`reason` field. -/
def hasUncReason (r : String) (effs : List Effect) : Bool :=
  effs.any fun e =>
    match e with
    | .emitUncertainty u => u.reason == some r
    | _ => false

/-- Whether an effect list contains an uncertainty emission with the given
`error` field. -/
def hasUncError (m : String) (effs : List Effect) : Bool :=
  effs.any fun e =>
    match e with
    | .emitUncertainty u => u.error == some m
    | _ => false

/-- Whether an effect list contains a Reasoner invocation. -/
def hasReasonCall (effs : List Effect) : Bool :=
  effs.any fun e =>
    match e with
    | .reasonCall _ => true
    | _ => false

/-- C1: in `handleAnswerFound`, the click is dispatched exactly when the
result's confidence reaches `config.ai.confidence_threshold` (and
coordinates exist), and a result below the threshold is routed to
uncertainty handling with reason `Low confidence` — which never happens
above the threshold. -/
theorem confidence_gate_iff (cfg : Config) (s : TakerState) (ad : AnswerData)
    (coords : Option (Int × Int)) (clickRes : Except String Unit) :
    hasClick (handleAnswerFound cfg s ad coords clickRes).2
      = (decide (cfg.confidence_threshold ≤ ad.confidence) && coords.isSome)
    ∧ hasUncReason "Low confidence" (handleAnswerFound cfg s ad coords clickRes).2
      = decide (ad.confidence < cfg.confidence_threshold) := by
  unfold handleAnswerFound executeAnswer handleUncertainty hasClick hasUncReason
  by_cases h : cfg.confidence_threshold ≤ ad.confidence
  · simp only [if_pos h]
    rcases coords with _ | ⟨x, y⟩ <;> rcases clickRes with m | u <;>
      cases s.currentQuestion <;>
      simp [h, not_lt.mpr h, List.any_append]
  · simp only [if_neg h]
    rcases coords with _ | ⟨x, y⟩ <;> rcases clickRes with m | u <;>
      cases s.currentQuestion <;>
      simp [h, lt_of_not_le h, List.any_append]

/-- C9: `stopExam` is idempotent on the session state — a second call
leaves exactly the state of the first, the stopped state is inactive, and
the question history survives unchanged. -/
theorem stopExam_idempotent (s : TakerState) :
    (stopExam (stopExam s).1).1 = (stopExam s).1
    ∧ ((stopExam s).1).isActive = false
    ∧ ((stopExam s).1).questionHistory = s.questionHistory := by
  unfold stopExam
  by_cases h : s.screenshotInterval <;> simp [h]

/-- C10: whenever `startExam` succeeds (a connection exists), the resulting
state has an empty question history — any history from a previous run is
discarded — along with the active flag set and the fresh exam id assigned. -/
theorem startExam_resets_history (s : TakerState) (newExamId : Nat)
    (hconn : s.connected = true) :
    ∃ st effs, startExam s newExamId = Except.ok (st, effs)
      ∧ st.questionHistory = [] ∧ st.isActive = true ∧ st.examId = some newExamId := by
  unfold startExam
  rw [hconn]
  exact ⟨_, _, rfl, rfl, rfl, rfl⟩

/-- A state with a previous run's recorded history, used to instantiate the
start/stop theorems on concrete data. -/
def sampleQuestion : Question :=
  ⟨3, "Capital of France?", "multiple_choice", ["Paris", "Rome"], "answered",
   some "Paris", some (mkRat 9 10), some "rag_general", none⟩

/-- Concrete connected state carrying one answered question from an earlier
run. -/
def sampleState : TakerState :=
  { isActive := true, manualOverride := false, connected := true,
    currentExamType := "general", examId := some 1,
    currentQuestion := some sampleQuestion,
    questionHistory := [sampleQuestion],
    screenshotInterval := true, lastScreenshot := none }

/-- Witness for C10: on the concrete connected state with one prior history
entry, `startExam` succeeds and the history comes back empty. -/
theorem startExam_resets_history_witness :
    sampleState.connected = true
    ∧ ∃ st effs, startExam sampleState 42 = Except.ok (st, effs)
        ∧ st.questionHistory = [] ∧ st.isActive = true ∧ st.examId = some 42 :=
  ⟨rfl, startExam_resets_history sampleState 42 rfl⟩

/-- `sampleState` with manual override enabled. -/
def overrideState : TakerState := {sampleState with manualOverride := true}

/-- `sampleState` at detection time: no current question, empty history. -/
def activeState : TakerState := {sampleState with currentQuestion := none, questionHistory := []}

/-- `sampleState` at execution time: an answered current question, nothing
yet in the history. -/
def answeredState : TakerState := {sampleState with questionHistory := []}

/-- A detected-question payload used in concrete evaluations. -/
def sampleQD : QuestionData :=
  ⟨"What does the word supported most nearly mean?", "multiple_choice", ["Held up", "Dropped"]⟩

/-- C2 counterexample: with manual override enabled (and the exam active),
an incoming screenshot produces only the monitoring emission — the
screen-interpretation call is NOT invoked — while a resolution result that
is already in flight still dispatches its click, because
`handleAnswerFound`/`executeAnswer` never consult the override flag.  Both
halves of the claim fail on the code. -/
theorem override_claim_counterexample :
    (handleRemotelyScreenshot overrideState "img0" true).2 = [Effect.emitScreenshot "img0"]
    ∧ hasClick (handleAnswerFound defaultConfig overrideState
        ⟨"Held up", mkRat 9 10, "rag_general"⟩ (some (120, 240)) (.ok ())).2 = true := by
  constructor
  · rfl
  · decide

/-- C2 amended: while manual override is enabled, an incoming screenshot is
still forwarded to observers but interpretation is skipped entirely; and
the execution side never reads the override flag — `handleAnswerFound`
issues exactly the same calls with the flag cleared, so an in-flight
resolution is not suppressed. -/
theorem override_skips_interpretation_not_execution (s : TakerState) (img : String)
    (analysisOk : Bool) (cfg : Config) (ad : AnswerData) (coords : Option (Int × Int))
    (clickRes : Except String Unit) (hov : s.manualOverride = true) :
    (handleRemotelyScreenshot s img analysisOk).2 = [Effect.emitScreenshot img]
    ∧ (handleAnswerFound cfg s ad coords clickRes).2
      = (handleAnswerFound cfg {s with manualOverride := false} ad coords clickRes).2 := by
  obtain ⟨act, ov, conn, ext, eid, cq, qh, si, ls⟩ := s
  subst hov
  constructor
  · unfold handleRemotelyScreenshot
    simp
  · unfold handleAnswerFound executeAnswer handleUncertainty
    by_cases h : cfg.confidence_threshold ≤ ad.confidence <;>
      cases cq <;>
      rcases coords with _ | c <;> rcases clickRes with m | u <;>
      simp [h]

/-- Witness for the amended C2 theorem at a concrete overridden state. -/
theorem override_skips_interpretation_not_execution_witness :
    (handleRemotelyScreenshot overrideState "w" true).2 = [Effect.emitScreenshot "w"]
    ∧ (handleAnswerFound defaultConfig overrideState ⟨"a", 0, "s"⟩ none (.ok ())).2
      = (handleAnswerFound defaultConfig {overrideState with manualOverride := false}
          ⟨"a", 0, "s"⟩ none (.ok ())).2 :=
  override_skips_interpretation_not_execution overrideState "w" true defaultConfig
    ⟨"a", 0, "s"⟩ none (.ok ()) rfl

/-- A client whose WebSocket object exists but whose connected flag is
false. -/
def disconnectedClient : RcState := ⟨true, false⟩

/-- C3 counterexample: with `connected == false`, `clickAnswer`,
`typeAnswer` and `dragAndDrop` all resolve successfully (`success: true`)
with no error observable by the caller — they do not fail fast; the wire
traffic is silently dropped by `sendMessage`. -/
theorem injection_no_error_counterexample :
    clickAnswer disconnectedClient 10 20 false = (Except.ok ⟨true, 10, 20⟩, [])
    ∧ typeAnswer disconnectedClient "B" false = (Except.ok ⟨true, "B"⟩, [])
    ∧ dragAndDrop disconnectedClient 1 2 3 4 = (Except.ok true, []) :=
  ⟨rfl, rfl, rfl⟩

/-- C3 amended: while `connected == false`, every input-injection operation
of the adapter sends nothing on the wire (messages are dropped with a
warning) yet still resolves successfully — no error is surfaced to the
caller. -/
theorem injection_dropped_when_disconnected (rc : RcState) (x y sx sy ex ey : Int)
    (text : String) (dbl cf : Bool) (hconn : rc.connected = false) :
    clickAnswer rc x y dbl = (Except.ok ⟨true, x, y⟩, [])
    ∧ typeAnswer rc text cf = (Except.ok ⟨true, text⟩, [])
    ∧ dragAndDrop rc sx sy ex ey = (Except.ok true, []) := by
  unfold clickAnswer typeAnswer dragAndDrop sendMessage
  simp [hconn]

/-- Witness for the amended C3 theorem on the concrete disconnected client. -/
theorem injection_dropped_when_disconnected_witness :
    clickAnswer disconnectedClient 5 6 true = (Except.ok ⟨true, 5, 6⟩, [])
    ∧ typeAnswer disconnectedClient "hi" true = (Except.ok ⟨true, "hi"⟩, [])
    ∧ dragAndDrop disconnectedClient 7 8 9 10 = (Except.ok true, []) :=
  injection_dropped_when_disconnected disconnectedClient 5 6 7 8 9 10 "hi" true true rfl

/-- C4 counterexample: on a knowledge-base miss (empty RAG result list) the
engine marks the question uncertain with the placeholder reason from
`searchOnlineForAnswer`, and no Reasoner call occurs anywhere in the cycle
— the Reasoner is not attempted before the question is marked uncertain. -/
theorem reasoner_never_attempted_counterexample :
    ((handleQuestionDetected defaultConfig activeState sampleQD 7 (.ok []) none
        (.ok ())).1.currentQuestion.map Question.status = some "uncertain")
    ∧ hasReasonCall (handleQuestionDetected defaultConfig activeState sampleQD 7 (.ok []) none
        (.ok ())).2 = false
    ∧ hasUncReason "Answer not found in knowledge base, online search not implemented yet"
        (handleQuestionDetected defaultConfig activeState sampleQD 7 (.ok []) none (.ok ())).2
        = true := by
  decide

/-- C4 amended: when the knowledge-base lookup yields no result above the
similarity threshold, the engine falls back to `searchOnlineForAnswer`, an
unimplemented placeholder that routes the question directly to uncertainty
handling (override enabled, status `uncertain`) with its literal reason
string; no Reasoner stage is attempted in this path. -/
theorem kb_miss_uncertain_without_reasoner (cfg : Config) (s : TakerState)
    (qd : QuestionData) (newId : Nat) (rs : List RagResult)
    (coords : Option (Int × Int)) (clickRes : Except String Unit)
    (hmiss : rs = [] ∨ ∃ top tl, rs = top :: tl ∧ top.score ≤ cfg.similarity_threshold) :
    hasReasonCall (handleQuestionDetected cfg s qd newId (.ok rs) coords clickRes).2 = false
    ∧ hasUncReason "Answer not found in knowledge base, online search not implemented yet"
        (handleQuestionDetected cfg s qd newId (.ok rs) coords clickRes).2 = true
    ∧ (handleQuestionDetected cfg s qd newId (.ok rs) coords clickRes).1.manualOverride = true
    ∧ (handleQuestionDetected cfg s qd newId (.ok rs) coords
        clickRes).1.currentQuestion.map Question.status = some "uncertain" := by
  rcases hmiss with h | ⟨top, tl, h, hle⟩
  · subst h
    unfold handleQuestionDetected searchOnlineForAnswer handleUncertainty
      hasReasonCall hasUncReason
    simp [List.any_append]
  · subst h
    unfold handleQuestionDetected searchOnlineForAnswer handleUncertainty
      hasReasonCall hasUncReason
    simp [not_lt.mpr hle, List.any_append]

/-- Witness for the amended C4 theorem on a concrete below-threshold RAG
hit. -/
theorem kb_miss_uncertain_without_reasoner_witness :
    hasReasonCall (handleQuestionDetected defaultConfig activeState sampleQD 7
        (.ok [⟨"Held up", mkRat 1 2⟩]) none (.ok ())).2 = false
    ∧ hasUncReason "Answer not found in knowledge base, online search not implemented yet"
        (handleQuestionDetected defaultConfig activeState sampleQD 7
          (.ok [⟨"Held up", mkRat 1 2⟩]) none (.ok ())).2 = true
    ∧ (handleQuestionDetected defaultConfig activeState sampleQD 7
        (.ok [⟨"Held up", mkRat 1 2⟩]) none (.ok ())).1.manualOverride = true
    ∧ (handleQuestionDetected defaultConfig activeState sampleQD 7
        (.ok [⟨"Held up", mkRat 1 2⟩]) none (.ok ())).1.currentQuestion.map Question.status
        = some "uncertain" :=
  kb_miss_uncertain_without_reasoner defaultConfig activeState sampleQD 7
    [⟨"Held up", mkRat 1 2⟩] none (.ok ()) (Or.inr ⟨⟨"Held up", mkRat 1 2⟩, [], rfl, by decide⟩)

/-- C5 counterexample: when the RAG search rejects (here with "timeout"),
`handleQuestionDetected`'s catch block routes the question straight to
uncertainty with the error attached — no fallback stage is attempted (no
placeholder-search reason, no Reasoner call): the stage failure is NOT
treated as "no result". -/
theorem lookup_failure_skips_fallback_counterexample :
    ((handleQuestionDetected defaultConfig activeState sampleQD 7 (.error "timeout") none
        (.ok ())).1.currentQuestion.map Question.status = some "uncertain")
    ∧ hasUncError "timeout" (handleQuestionDetected defaultConfig activeState sampleQD 7
        (.error "timeout") none (.ok ())).2 = true
    ∧ hasUncReason "Answer not found in knowledge base, online search not implemented yet"
        (handleQuestionDetected defaultConfig activeState sampleQD 7 (.error "timeout") none
          (.ok ())).2 = false
    ∧ hasReasonCall (handleQuestionDetected defaultConfig activeState sampleQD 7
        (.error "timeout") none (.ok ())).2 = false := by
  decide

/-- C5 amended: a failing lookup call is caught inside the handler — the
function returns normally (never a hard error to the operator) and no
action is dispatched — but instead of continuing the fallback chain the
question is routed directly to uncertainty handling with the error
attached, override enabled. -/
theorem lookup_failure_routes_to_uncertainty (cfg : Config) (s : TakerState)
    (qd : QuestionData) (newId : Nat) (msg : String) (coords : Option (Int × Int))
    (clickRes : Except String Unit) :
    hasUncError msg (handleQuestionDetected cfg s qd newId (.error msg) coords clickRes).2 = true
    ∧ hasClick (handleQuestionDetected cfg s qd newId (.error msg) coords clickRes).2 = false
    ∧ hasReasonCall (handleQuestionDetected cfg s qd newId (.error msg) coords clickRes).2 = false
    ∧ hasUncReason "Answer not found in knowledge base, online search not implemented yet"
        (handleQuestionDetected cfg s qd newId (.error msg) coords clickRes).2 = false
    ∧ (handleQuestionDetected cfg s qd newId (.error msg) coords clickRes).1.manualOverride = true
    ∧ (handleQuestionDetected cfg s qd newId (.error msg) coords
        clickRes).1.currentQuestion.map Question.status = some "uncertain" := by
  unfold handleQuestionDetected handleUncertainty hasUncError hasClick hasReasonCall hasUncReason
  simp [List.any_append]

/-- C6: a screen-interpretation report whose detection confidence is below
the 0.5 acceptance floor produces no effect at all — no
`question_detected` event (hence no Question record downstream, since
`handleQuestionDetected` only runs on that event), no knowledge search, no
web search, no Reasoner call, no click: the report is dropped silently. -/
theorem detection_floor_drops_silently (cfg : Config) (a : Analysis)
    (ragResp : Except String (List RagResult)) (webConfigured : Bool)
    (webResp : Except String (List WebResult)) (reasonResp : Except String ReasonResult)
    (hlow : a.confidence < mkRat 1 2) :
    processAnalysis cfg a ragResp webConfigured webResp reasonResp = [] := by
  unfold processAnalysis
  cases a.question <;> simp [hlow]

/-- A vision report with question text and options but confidence 0.3,
below the 0.5 floor. -/
def lowConfAnalysis : Analysis :=
  ⟨some "What is 2+2?", "multiple_choice", ["3", "4"], mkRat 3 10⟩

/-- Witness for C6 on the concrete low-confidence report. -/
theorem detection_floor_drops_silently_witness :
    lowConfAnalysis.confidence < mkRat 1 2
    ∧ processAnalysis defaultConfig lowConfAnalysis (.ok []) true (.ok [])
        (.error "t") = [] :=
  ⟨by decide,
   detection_floor_drops_silently defaultConfig lowConfAnalysis (.ok []) true (.ok [])
     (.error "t") (by decide)⟩

/-- C7 counterexample: when coordinate lookup returns none for an answered
question, the final recorded status is `uncertain` — not `abandoned` (no
such status exists in the code) — and the history does NOT record the
question; only the override auto-enable matches the claim. -/
theorem abandoned_status_counterexample :
    ((executeAnswer answeredState none (.ok ())).1.currentQuestion.map Question.status
        = some "uncertain")
    ∧ ((executeAnswer answeredState none (.ok ())).1.currentQuestion.map Question.status
        ≠ some "abandoned")
    ∧ (executeAnswer answeredState none (.ok ())).1.questionHistory = []
    ∧ (executeAnswer answeredState none (.ok ())).1.manualOverride = true := by
  decide

/-- C7 amended: a failed execution attempt (no coordinates, or the remote
click rejects) routes to uncertainty handling: the question's final status
is `uncertain`, override is auto-enabled, the session history is unchanged
(the question is NOT appended), and the chosen answer text survives on the
current-question record. -/
theorem execution_failure_marks_uncertain (s : TakerState) (q : Question)
    (coords : Option (Int × Int)) (clickRes : Except String Unit)
    (hq : s.currentQuestion = some q)
    (hfail : coords = none ∨ ∃ m, clickRes = Except.error m) :
    ((executeAnswer s coords clickRes).1.currentQuestion.map Question.status = some "uncertain")
    ∧ (executeAnswer s coords clickRes).1.manualOverride = true
    ∧ (executeAnswer s coords clickRes).1.questionHistory = s.questionHistory
    ∧ ((executeAnswer s coords clickRes).1.currentQuestion.bind Question.answer = q.answer) := by
  rcases coords with _ | c
  · unfold executeAnswer handleUncertainty
    simp [hq]
  · rcases hfail with h | ⟨m, hm⟩
    · exact absurd h (by simp)
    · subst hm
      unfold executeAnswer handleUncertainty
      simp [hq]

/-- Witness for the amended C7 theorem: the concrete answered state with a
none coordinate lookup. -/
theorem execution_failure_marks_uncertain_witness :
    answeredState.currentQuestion = some sampleQuestion
    ∧ (((executeAnswer answeredState none (.ok ())).1.currentQuestion.map Question.status
          = some "uncertain")
       ∧ (executeAnswer answeredState none (.ok ())).1.manualOverride = true
       ∧ (executeAnswer answeredState none (.ok ())).1.questionHistory
          = answeredState.questionHistory
       ∧ ((executeAnswer answeredState none (.ok ())).1.currentQuestion.bind Question.answer
          = sampleQuestion.answer)) :=
  ⟨rfl, execution_failure_marks_uncertain answeredState sampleQuestion none (.ok ()) rfl
    (Or.inl rfl)⟩

/-- C8 counterexample: two screenshots handled back to back while the
session is active — i.e. the second arrives while the first's
interpretation call is still outstanding — are BOTH dispatched to
interpretation immediately; nothing is queued (the `ExamTaker` state has no
pending-screenshot field at all, only the overwritten `lastScreenshot`). -/
theorem screenshot_queue_counterexample :
    Effect.analyzeScreen "shotA" ∈ (handleRemotelyScreenshot activeState "shotA" true).2
    ∧ Effect.analyzeScreen "shotB"
        ∈ (handleRemotelyScreenshot (handleRemotelyScreenshot activeState "shotA" true).1
            "shotB" true).2 := by
  decide

/-- C8 amended: there is no screenshot queue and no at-most-one-in-flight
bound — every screenshot received while the session is active and override
is off is dispatched to interpretation immediately, even when the previous
interpretation has not completed, and `lastScreenshot` is simply
overwritten on each arrival. -/
theorem every_screenshot_dispatched (s : TakerState) (a b : String) (okA okB : Bool)
    (hact : s.isActive = true) (hov : s.manualOverride = false) :
    Effect.analyzeScreen a ∈ (handleRemotelyScreenshot s a okA).2
    ∧ Effect.analyzeScreen b
        ∈ (handleRemotelyScreenshot (handleRemotelyScreenshot s a okA).1 b okB).2
    ∧ (handleRemotelyScreenshot s a okA).1.lastScreenshot = some a
    ∧ (handleRemotelyScreenshot (handleRemotelyScreenshot s a okA).1 b
        okB).1.lastScreenshot = some b := by
  unfold handleRemotelyScreenshot
  cases okA <;> cases okB <;> simp [hact, hov]

/-- Witness for the amended C8 theorem on the concrete active state. -/
theorem every_screenshot_dispatched_witness :
    Effect.analyzeScreen "shotA" ∈ (handleRemotelyScreenshot activeState "shotA" true).2
    ∧ Effect.analyzeScreen "shotB"
        ∈ (handleRemotelyScreenshot (handleRemotelyScreenshot activeState "shotA" true).1
            "shotB" true).2
    ∧ (handleRemotelyScreenshot activeState "shotA" true).1.lastScreenshot = some "shotA"
    ∧ (handleRemotelyScreenshot (handleRemotelyScreenshot activeState "shotA" true).1
        "shotB" true).1.lastScreenshot = some "shotB" :=
  every_screenshot_dispatched activeState "shotA" "shotB" true true rfl rfl

end AIExam
